import Mathlib

/-!
Verification development for the TaskFlow task-intelligence subsystem
(backend/server.py). The AI service functions are shallowly embedded:

* datetimes are modelled as rational numbers of seconds since an epoch,
  so that the delta-hours computation of the source, which divides a
  float number of seconds by 3600.0, becomes exact rational division
  (microsecond-resolution datetimes are exactly representable); the
  normalisation of timezone-naive datetimes to UTC is the identity here;
* the external chat call is modelled by an explicit outcome value: either
  the raw reply text together with the result of attempting to parse it
  as JSON, or a raised transport error;
* JSON values are modelled by an inductive type whose numbers are
  integers, which covers every reply shape used in the theorems below;
* Python int(x) conversion and the field coercions performed by the
  pydantic result models are modelled field by field.
-/

namespace Taskflow

/-- Result model AIPriorityAnalysis of the source: suggested priority
label, human-readable reasoning, and an integer urgency score. -/
structure AIPriorityAnalysis where
  suggested_priority : String
  reasoning : String
  urgency_score : Int
deriving DecidableEq, Repr

/-- Result model AITaskSummary of the source: summary text plus lists of
insights and recommendations. -/
structure AITaskSummary where
  summary : String
  insights : List String
  recommendations : List String
deriving DecidableEq, Repr

/-- JSON values as produced by json.loads, with numbers restricted to
integers (the only numbers appearing in the replies analysed here). -/
inductive JValue where
  | jnull
  | jbool (b : Bool)
  | jint (n : Int)
  | jstr (s : String)
  | jarr (elems : List JValue)
  | jobj (fields : List (String × JValue))

/-- Dictionary lookup, modelling dict.get on the parsed JSON object
(keys of a Python dict are unique, so first-match lookup agrees). -/
def jlookup (fields : List (String × JValue)) (key : String) : Option JValue :=
  match fields with
  | [] => none
  | (k, v) :: rest => if k = key then some v else jlookup rest key

/-- Coercion of a JSON value into a pydantic str field (lenient v1
validation): strings pass through, numbers and booleans are coerced via
str(), and null, lists and objects raise a validation error (none). -/
def strCoerce : JValue → Option String
  | .jstr s => some s
  | .jint n => some (toString n)
  | .jbool b => some (if b then "True" else "False")
  | _ => none

/-- Coercion into a pydantic field of type List of str: each element of a
JSON array is coerced as a str field; any non-array raises (none). -/
def strListCoerce : JValue → Option (List String)
  | .jarr elems => elems.mapM strCoerce
  | _ => none

/-- Value of a decimal digit run. -/
def digitsToNat (cs : List Char) : Nat :=
  cs.foldl (fun acc c => acc * 10 + (c.toNat - 48)) 0

/-- Python int(s) for a string argument: surrounding whitespace is
stripped, an optional single sign is allowed, and the remainder must be a
nonempty run of decimal digits, else ValueError is raised (none).
Underscore digit separators are not modelled. -/
def pyIntOfString (s : String) : Option Int :=
  let t := (s.data.dropWhile Char.isWhitespace).reverse.dropWhile
    Char.isWhitespace |>.reverse
  let core : Option (Bool × List Char) :=
    match t with
    | [] => none
    | c :: rest =>
      if c.toNat = 45 then some (true, rest)
      else if c.toNat = 43 then some (false, rest)
      else some (false, t)
  match core with
  | none => none
  | some (neg, ds) =>
    if ds ≠ [] ∧ ds.all Char.isDigit then
      let n : Int := Int.ofNat (digitsToNat ds)
      some (if neg then -n else n)
    else none

/-- Python int(v) applied to a decoded JSON value: integers pass through,
booleans become 0 or 1, strings are parsed as integers, and null, lists
and objects raise TypeError (none). -/
def pyInt : JValue → Option Int
  | .jint n => some n
  | .jbool b => some (if b then 1 else 0)
  | .jstr s => pyIntOfString s
  | _ => none

/-- Fixed fallback returned by the inner except branch of the priority
parse in analyze_task_priority (lines 443-449 of the source). -/
def priorityParseFallback : AIPriorityAnalysis :=
  { suggested_priority := "medium"
    reasoning := "AI suggested medium priority based on task analysis"
    urgency_score := 5 }

/-- Field extraction of the priority parse (lines 437-442): each field is
read with dict.get and a per-field default, the urgency score goes
through int(), and the values are validated by the pydantic model; any
raise during this yields none (caught by the bare except). Only a JSON
object supports attribute access .get, so any other decoded value raises
as well. -/
def parsePriorityFields (j : JValue) : Option AIPriorityAnalysis :=
  match j with
  | .jobj fields =>
    let sp := match jlookup fields "suggested_priority" with
      | none => some "medium"
      | some v => strCoerce v
    let rz := match jlookup fields "reasoning" with
      | none => some "Analysis completed"
      | some v => strCoerce v
    let us := match jlookup fields "urgency_score" with
      | none => some 5
      | some v => pyInt v
    match sp, rz, us with
    | some p, some r, some u => some ⟨p, r, u⟩
    | _, _, _ => none
  | _ => none

/-- The try/except around json.loads and the model construction in
analyze_task_priority: the argument is the outcome of json.loads on the
raw reply (none when loads raised), and any raise inside the try resolves
to the fixed fallback. -/
def parsePriority (parsed : Option JValue) : AIPriorityAnalysis :=
  match parsed with
  | some j => (parsePriorityFields j).getD priorityParseFallback
  | none => priorityParseFallback

/-- Field extraction of the summary parse in generate_task_summary
(lines 310-315), analogous to parsePriorityFields. -/
def parseSummaryFields (j : JValue) : Option AITaskSummary :=
  match j with
  | .jobj fields =>
    let sm := match jlookup fields "summary" with
      | none => some "Task analysis completed"
      | some v => strCoerce v
    let ins := match jlookup fields "insights" with
      | none => some []
      | some v => strListCoerce v
    let recs := match jlookup fields "recommendations" with
      | none => some []
      | some v => strListCoerce v
    match sm, ins, recs with
    | some s, some i, some r => some ⟨s, i, r⟩
    | _, _, _ => none
  | _ => none

/-- The try/except around the summary parse (lines 309-322): on any raise
the summary falls back to the raw reply truncated to 200 characters with
an appended ellipsis when longer, with fixed generic insights and
recommendations. -/
def parseSummary (raw : String) (parsed : Option JValue) : AITaskSummary :=
  match parsed.bind parseSummaryFields with
  | some result => result
  | none =>
    { summary := if raw.length > 200 then raw.take 200 ++ "..." else raw
      insights := ["AI analysis completed"]
      recommendations := ["Continue managing tasks effectively"] }

/-- High-urgency keyword list of the heuristic branch (line 368). -/
def high_words : List String :=
  ["urgent", "asap", "today", "now", "immediately", "critical", "deadline",
   "bug", "prod", "exam", "submit"]

/-- Medium-urgency keyword list (line 369). -/
def med_words : List String :=
  ["soon", "important", "review", "prepare", "meeting", "follow up", "todo"]

/-- Low-urgency keyword list (line 370). -/
def low_words : List String :=
  ["optional", "someday", "later", "idea", "backlog", "nice to have"]

/-- Whether the first character list begins the second. -/
def listStarts : List Char → List Char → Bool
  | [], _ => true
  | _ :: _, [] => false
  | a :: as, b :: bs => a == b && listStarts as bs

/-- Whether the first character list occurs contiguously in the second. -/
def listHasSub (needle : List Char) : List Char → Bool
  | [] => needle.isEmpty
  | b :: bs => listStarts needle (b :: bs) || listHasSub needle bs

/-- The Python membership test w in text: substring containment. -/
def containsSub (hay needle : String) : Bool :=
  listHasSub needle.data hay.data

/-- ASCII lowercasing, character by character (written over the
character list so that concrete instances reduce inside the kernel);
Char.toLower case-folds ASCII letters, which covers every keyword in the
lists below. -/
def lowerString (s : String) : String :=
  ⟨s.data.map Char.toLower⟩

/-- The text the keyword rules scan: the f-string joining title and
description with a space, then lowercased (line 367). -/
def kwText (title description : String) : String :=
  lowerString (title ++ " " ++ description)

/-- The any(w in text for w in ws) tests of lines 371, 374, 377. -/
def anyKeyword (ws : List String) (text : String) : Bool :=
  ws.any (fun w => containsSub text w)

/-- Word count of description.split(): number of maximal nonempty
whitespace-separated chunks (line 382; the falsy check for an empty
description also yields 0 there). -/
def pySplitLen (s : String) : Nat :=
  countWords s.data false
where
  /-- Counts maximal nonempty runs of non-whitespace characters; the
  flag records whether the previous character was inside a word. -/
  countWords : List Char → Bool → Nat
    | [], _ => 0
    | c :: rest, inWord =>
      if c.isWhitespace then countWords rest false
      else (if inWord then 0 else 1) + countWords rest true

/-- The delta computed on line 345: seconds between due date and now
divided by 3600, as exact rational arithmetic. -/
def deltaHours (due now : ℚ) : ℚ :=
  (due - now) / 3600

/-- The due-date proximity stage of the heuristic branch (lines 340-364),
threaded over the running score and reasons exactly as the if/elif chain
of the source. -/
def dueStage (due : Option ℚ) (now : ℚ) (sr : Int × List String) :
    Int × List String :=
  match due with
  | none => sr
  | some d =>
    let delta := deltaHours d now
    if delta ≤ 0 then (sr.1 + 3, sr.2 ++ ["Past due: increase urgency"])
    else if delta ≤ 3 then (max sr.1 8, sr.2 ++ ["Due within 3 hours"])
    else if delta ≤ 24 then (sr.1 + 4, sr.2 ++ ["Due within 24 hours"])
    else if delta ≤ 72 then (sr.1 + 2, sr.2 ++ ["Due in 1â€“3 days"])
    else if delta ≤ 168 then (sr.1 + 1, sr.2 ++ ["Due this week"])
    else (sr.1 - 1, sr.2 ++ ["Due later than a week"])

/-- The three independent keyword checks of lines 366-379, applied in
source order to the running score and reasons. -/
def kwStage (text : String) (sr : Int × List String) : Int × List String :=
  let sr1 :=
    if anyKeyword high_words text then
      (sr.1 + 3, sr.2 ++ ["High-urgency keywords detected"])
    else sr
  let sr2 :=
    if anyKeyword med_words text then
      (sr1.1 + 1, sr1.2 ++ ["Important keywords detected"])
    else sr1
  if anyKeyword low_words text then
    (sr2.1 - 2, sr2.2 ++ ["Low-urgency keywords detected"])
  else sr2

/-- The description-length rule of lines 381-385. -/
def lenStage (description : String) (sr : Int × List String) :
    Int × List String :=
  if pySplitLen description ≥ 40 then
    (sr.1 + 1, sr.2 ++ ["Longer description suggests more complexity"])
  else sr

/-- Pre-clamp heuristic state: baseline score 5 and empty reasons,
transformed by the due-date, keyword and length stages in source order
(lines 336-385). First component is the score before clamping. -/
def heuristicRaw (title description : String) (due : Option ℚ) (now : ℚ) :
    Int × List String :=
  lenStage description (kwStage (kwText title description) (dueStage due now (5, [])))

/-- The clamp of line 388. The score is an integer throughout the
heuristic branch, so int(round(score)) is the identity on it. -/
def clampScore (score : Int) : Int :=
  max 1 (min 10 score)

/-- The score-to-label map of lines 389-394. -/
def labelOfScore (score : Int) : String :=
  if score ≥ 8 then "high" else if score ≥ 5 then "medium" else "low"

/-- The heuristic branch of analyze_task_priority (lines 334-400): clamp
the raw score, map it to a label, and join the reasons with a semicolon,
falling back to the fixed phrase when no rule fired (an empty join is
falsy in Python). -/
def heuristicAnalysis (title description : String) (due : Option ℚ)
    (now : ℚ) : AIPriorityAnalysis :=
  let sr := heuristicRaw title description due now
  let score := clampScore sr.1
  { suggested_priority := labelOfScore score
    reasoning :=
      if sr.2.isEmpty then "Heuristic analysis completed"
      else String.intercalate "; " sr.2
    urgency_score := score }

/-- Outcome of the external chat send_message call: either the raw reply
text together with the result of json.loads on it (none when loads
raises), or a raised transport error. -/
inductive SendOutcome where
  | ok (raw : String) (parsed : Option JValue)
  | err

/-- Fixed degraded result of the outer except of analyze_task_priority
(lines 451-457). -/
def priorityDegraded : AIPriorityAnalysis :=
  { suggested_priority := "medium"
    reasoning := "Priority analysis temporarily unavailable"
    urgency_score := 5 }

/-- analyze_task_priority (lines 332-457). The configuration is passed
explicitly: hasKey is the truthiness of EMERGENT_LLM_KEY, aiAvailable is
the module flag _AI_AVAILABLE, and outcome stands for the chat call
performed when the AI path runs. If either configuration flag is false
the heuristic branch runs; otherwise a transport failure yields the
fixed degraded result and a reply is handed to the priority parse. -/
def analyze_task_priority (hasKey aiAvailable : Bool) (outcome : SendOutcome)
    (title description : String) (due : Option ℚ) (now : ℚ) :
    AIPriorityAnalysis :=
  if !hasKey || !aiAvailable then heuristicAnalysis title description due now
  else
    match outcome with
    | .err => priorityDegraded
    | .ok _raw parsed => parsePriority parsed

/-- Task record as consumed by generate_task_summary from the database:
title, priority and status are present, description optional. -/
structure TaskRec where
  title : String
  priority : String
  status : String
  description : Option String

/-- Fixed empty result of lines 266-271. -/
def summaryEmpty : AITaskSummary :=
  { summary := "No tasks to summarize", insights := [], recommendations := [] }

/-- Fixed degraded result of the outer except of generate_task_summary
(lines 324-330). -/
def summaryDegraded : AITaskSummary :=
  { summary := "AI analysis temporarily unavailable"
    insights := ["System is processing your tasks"]
    recommendations := ["Continue with your current workflow"] }

/-- generate_task_summary (lines 264-330). The guard checks only the
task list and the credential. When the AI library is unavailable the
noop chat client returns the fixed sentinel reply, which is not JSON, so
the parse lands in its truncation fallback; when it is available the
external outcome decides between the degraded result and the parse. -/
def generate_task_summary (tasks : List TaskRec) (hasKey aiAvailable : Bool)
    (outcome : SendOutcome) : AITaskSummary :=
  if tasks.isEmpty || !hasKey then summaryEmpty
  else if !aiAvailable then parseSummary "AI integration disabled" none
  else
    match outcome with
    | .err => summaryDegraded
    | .ok raw parsed => parseSummary raw parsed

/-- List of fields for an optional JSON object entry, used to build
reply shapes for the parser theorems. -/
def optField (key : String) (v : Option JValue) : List (String × JValue) :=
  match v with
  | none => []
  | some x => [(key, x)]

/-- A priority reply object carrying any subset of the three expected
fields, each well-typed when present. -/
def mkPriorityReply (sp rz : Option String) (us : Option Int) : JValue :=
  .jobj (optField "suggested_priority" (sp.map .jstr) ++
    optField "reasoning" (rz.map .jstr) ++
    optField "urgency_score" (us.map .jint))

theorem kwStage_fst (text : String) (sr : Int × List String) :
    (kwStage text sr).1 =
      sr.1 + (if anyKeyword high_words text then 3 else 0)
        + (if anyKeyword med_words text then 1 else 0)
        - (if anyKeyword low_words text then 2 else 0) := by
  simp only [kwStage]
  split_ifs <;> simp

theorem lenStage_fst (description : String) (sr : Int × List String) :
    (lenStage description sr).1 =
      sr.1 + (if pySplitLen description ≥ 40 then 1 else 0) := by
  simp only [lenStage]
  split_ifs <;> simp

theorem lenStage_snd_mem (description : String) (sr : Int × List String)
    (a : String) (h : a ∈ sr.2) : a ∈ (lenStage description sr).2 := by
  simp only [lenStage]
  split_ifs <;> simp [h]

theorem kwStage_snd_mem_high (text : String) (sr : Int × List String)
    (h : anyKeyword high_words text = true) :
    "High-urgency keywords detected" ∈ (kwStage text sr).2 := by
  simp only [kwStage, h, if_true]
  split_ifs <;> simp

theorem kwStage_snd_mem_med (text : String) (sr : Int × List String)
    (h : anyKeyword med_words text = true) :
    "Important keywords detected" ∈ (kwStage text sr).2 := by
  simp only [kwStage, h, if_true]
  split_ifs <;> simp

theorem kwStage_snd_mem_low (text : String) (sr : Int × List String)
    (h : anyKeyword low_words text = true) :
    "Low-urgency keywords detected" ∈ (kwStage text sr).2 := by
  simp only [kwStage, h, if_true]
  split_ifs <;> simp

/-- C5: when the external adapter call raises during analyze_task_priority
with both configuration flags set (AI operating mode), the result is
exactly the fixed degraded analysis: suggested_priority medium, urgency
score 5, and the temporary-unavailability reasoning string; the heuristic
engine is not consulted and no error reaches the caller (the function is
total and independent of the task attributes on this path). -/
theorem priority_adapter_failure_fixed_result (title description : String)
    (due : Option ℚ) (now : ℚ) :
    analyze_task_priority true true SendOutcome.err title description due now
      = priorityDegraded := rfl

/-- C8: when the raw summary reply fails to parse as JSON, the summary is
the reply truncated to its first 200 characters with an appended ellipsis
when the reply is longer than 200 characters and the reply itself
otherwise, and the insights and recommendations are the fixed nonempty
generic lists. -/
theorem summary_parse_failure_truncation (raw : String) :
    parseSummary raw none =
      { summary := if raw.length > 200 then raw.take 200 ++ "..." else raw
        insights := ["AI analysis completed"]
        recommendations := ["Continue managing tasks effectively"] } ∧
    (parseSummary raw none).insights ≠ [] ∧
    (parseSummary raw none).recommendations ≠ [] :=
  ⟨rfl, by simp [parseSummary], by simp [parseSummary]⟩

/-- C9: the heuristic engine is pure and deterministic: two calls with
identical title, description, due date and now produce identical
analyses. -/
theorem heuristic_deterministic (t1 d1 t2 d2 : String) (due1 due2 : Option ℚ)
    (n1 n2 : ℚ) (ht : t1 = t2) (hd : d1 = d2) (hdue : due1 = due2)
    (hn : n1 = n2) :
    heuristicAnalysis t1 d1 due1 n1 = heuristicAnalysis t2 d2 due2 n2 := by
  subst ht hd hdue hn
  rfl

/-- Witness for C9 at a concrete pair of identical inputs. -/
theorem heuristic_deterministic_witness :
    heuristicAnalysis "Submit report" "soon" none 0
      = heuristicAnalysis "Submit report" "soon" none 0 :=
  heuristic_deterministic "Submit report" "soon" "Submit report" "soon"
    none none 0 0 rfl rfl rfl rfl

/-- C10: keyword detection is substring containment on the case-folded
concatenation of title and description: whenever some keyword of a list
occurs anywhere in that text, also inside a larger word, the
corresponding reason (appended exactly when the corresponding score
adjustment is applied) is present in the heuristic reasons. -/
theorem keyword_substring_detection (title description : String)
    (due : Option ℚ) (now : ℚ) :
    (anyKeyword high_words (kwText title description) = true →
      "High-urgency keywords detected"
        ∈ (heuristicRaw title description due now).2) ∧
    (anyKeyword med_words (kwText title description) = true →
      "Important keywords detected"
        ∈ (heuristicRaw title description due now).2) ∧
    (anyKeyword low_words (kwText title description) = true →
      "Low-urgency keywords detected"
        ∈ (heuristicRaw title description due now).2) := by
  unfold heuristicRaw
  exact ⟨fun h => lenStage_snd_mem _ _ _ (kwStage_snd_mem_high _ _ h),
    fun h => lenStage_snd_mem _ _ _ (kwStage_snd_mem_med _ _ h),
    fun h => lenStage_snd_mem _ _ _ (kwStage_snd_mem_low _ _ h)⟩

/-- Witness for C10: the text know debugging monsoon ideal matches now
inside know and bug inside debugging (high list), soon inside monsoon
(medium list) and idea inside ideal (low list), and all three reasons
fire. -/
theorem keyword_substring_detection_witness :
    anyKeyword high_words (kwText "know debugging" "monsoon ideal") = true ∧
    anyKeyword med_words (kwText "know debugging" "monsoon ideal") = true ∧
    anyKeyword low_words (kwText "know debugging" "monsoon ideal") = true ∧
    "High-urgency keywords detected"
      ∈ (heuristicRaw "know debugging" "monsoon ideal" none 0).2 ∧
    "Important keywords detected"
      ∈ (heuristicRaw "know debugging" "monsoon ideal" none 0).2 ∧
    "Low-urgency keywords detected"
      ∈ (heuristicRaw "know debugging" "monsoon ideal" none 0).2 :=
  ⟨by decide, by decide, by decide,
    (keyword_substring_detection "know debugging" "monsoon ideal" none 0).1
      (by decide),
    (keyword_substring_detection "know debugging" "monsoon ideal" none 0).2.1
      (by decide),
    (keyword_substring_detection "know debugging" "monsoon ideal" none 0).2.2
      (by decide)⟩

/-- C7: with identical title, description and now, a past-due task (delta
at most zero hours) scores at least 3 points higher before clamping than
the same task with no due date. -/
theorem pastdue_preclamp_plus3 (title description : String) (d now : ℚ)
    (h : deltaHours d now ≤ 0) :
    (heuristicRaw title description none now).1 + 3
      ≤ (heuristicRaw title description (some d) now).1 := by
  have hdue : dueStage (some d) now (5, [])
      = (5 + 3, ["Past due: increase urgency"]) := by
    simp only [dueStage]
    rw [if_pos h]
    simp
  unfold heuristicRaw
  rw [hdue, show dueStage none now (5, []) = (5, []) from rfl,
    lenStage_fst, kwStage_fst, lenStage_fst, kwStage_fst]
  omega

/-- Witness for C7 at a task due one hour in the past. -/
theorem pastdue_preclamp_plus3_witness :
    (heuristicRaw "Pay rent" "" none 0).1 + 3
      ≤ (heuristicRaw "Pay rent" "" (some (-3600)) 0).1 :=
  pastdue_preclamp_plus3 "Pay rent" "" (-3600) 0 (by norm_num [deltaHours])

/-- C1 (amended): for a due date with 0 < delta_hours ≤ 3, the due-date
stage raises the score to 8, and provided no low-urgency keyword occurs
in the case-folded title-plus-description text, the later rules can only
raise it further, so the heuristic analysis has urgency score at least 8
and suggested priority high. The restriction to inputs without a
low-urgency keyword match is forced: the keyword rules run after the
hard floor, see the counterexample. -/
theorem due_within_3h_high_unless_low_keyword (title description : String)
    (d now : ℚ) (h0 : 0 < deltaHours d now) (h3 : deltaHours d now ≤ 3)
    (hlow : anyKeyword low_words (kwText title description) = false) :
    8 ≤ (heuristicAnalysis title description (some d) now).urgency_score ∧
    (heuristicAnalysis title description (some d) now).suggested_priority
      = "high" := by
  have hdue : dueStage (some d) now (5, []) = (8, ["Due within 3 hours"]) := by
    simp only [dueStage]
    rw [if_neg (not_le.mpr h0), if_pos h3]
    norm_num
  have hraw : 8 ≤ (heuristicRaw title description (some d) now).1 := by
    unfold heuristicRaw
    rw [hdue, lenStage_fst, kwStage_fst, hlow,
      if_neg (by decide : ¬ (false = true))]
    split_ifs <;> omega
  have hscore :
      8 ≤ clampScore (heuristicRaw title description (some d) now).1 := by
    unfold clampScore
    exact le_trans (le_min (by norm_num) hraw) (le_max_right 1 _)
  refine ⟨hscore, ?_⟩
  show labelOfScore (clampScore (heuristicRaw title description (some d) now).1)
    = "high"
  unfold labelOfScore
  rw [if_pos hscore]

/-- Witness for C1 (amended) at a keyword-free task due in two hours. -/
theorem due_within_3h_high_unless_low_keyword_witness :
    8 ≤ (heuristicAnalysis "Plan" "" (some 7200) 0).urgency_score ∧
    (heuristicAnalysis "Plan" "" (some 7200) 0).suggested_priority = "high" :=
  due_within_3h_high_unless_low_keyword "Plan" "" 7200 0
    (by norm_num [deltaHours]) (by norm_num [deltaHours]) (by decide)

/-- Counterexample for C1 as stated: the task titled optional due in two
hours (delta is 2 hours, inside the 0 to 3 hour bucket) matches the
low-urgency keyword list after the hard floor, ending at score 6 and
suggested priority medium, so the property does not hold regardless of
keyword content. -/
theorem due_within_3h_high_counterexample :
    0 < deltaHours 7200 0 ∧ deltaHours 7200 0 ≤ 3 ∧
    (heuristicAnalysis "optional" "" (some 7200) 0).suggested_priority
      = "medium" ∧
    (heuristicAnalysis "optional" "" (some 7200) 0).urgency_score = 6 := by
  have hdue : dueStage (some 7200) 0 (5, []) = (8, ["Due within 3 hours"]) := by
    simp only [dueStage]
    rw [if_neg (by norm_num [deltaHours]), if_pos (by norm_num [deltaHours])]
    norm_num
  have hraw : heuristicRaw "optional" "" (some 7200) 0
      = (6, ["Due within 3 hours", "Low-urgency keywords detected"]) := by
    unfold heuristicRaw
    rw [hdue]
    decide
  refine ⟨by norm_num [deltaHours], by norm_num [deltaHours], ?_, ?_⟩
  · show labelOfScore (clampScore (heuristicRaw "optional" "" (some 7200) 0).1)
      = "medium"
    rw [hraw]
    decide
  · show clampScore (heuristicRaw "optional" "" (some 7200) 0).1 = 6
    rw [hraw]
    decide

/-- C2 (amended): generate_task_summary returns the fixed empty result
whenever the task list is empty or the service credential is absent; it
does not consult the library-availability flag. -/
theorem summary_empty_guard (tasks : List TaskRec) (hasKey aiAvailable : Bool)
    (outcome : SendOutcome) (h : tasks = [] ∨ hasKey = false) :
    generate_task_summary tasks hasKey aiAvailable outcome = summaryEmpty := by
  rcases h with h | h <;> subst h <;> simp [generate_task_summary]

/-- Witness for C2 (amended) at an empty task list with both flags set. -/
theorem summary_empty_guard_witness :
    generate_task_summary [] true true (SendOutcome.ok "x" none)
      = summaryEmpty :=
  summary_empty_guard [] true true (SendOutcome.ok "x" none) (Or.inl rfl)

/-- Counterexample for C2 as stated: with a nonempty task list, the
credential present but the AI library not loadable (Heuristic mode per
the claim), the function proceeds down the AI path with the noop client,
whose sentinel reply is not JSON, and returns its fallback-parsed
summary rather than the fixed empty result. -/
theorem summary_guard_counterexample :
    generate_task_summary [⟨"Write report", "medium", "pending", none⟩]
        true false SendOutcome.err
      = { summary := "AI integration disabled"
          insights := ["AI analysis completed"]
          recommendations := ["Continue managing tasks effectively"] } ∧
    generate_task_summary [⟨"Write report", "medium", "pending", none⟩]
        true false SendOutcome.err
      ≠ summaryEmpty := by
  constructor <;> decide

/-- C3 (code bug): on the AI success path the parsed urgency score is
taken from the reply with no clamping, so a reply carrying urgency_score
42 yields an analysis whose urgency score is 42, outside the documented
1 to 10 scale. The listed JSON value is exactly what json.loads returns
on the listed raw reply text. -/
theorem unclamped_ai_score_eval :
    (analyze_task_priority true true
      (SendOutcome.ok
        "\x7b\"suggested_priority\": \"high\", \"reasoning\": \"release day\", \"urgency_score\": 42\x7d"
        (some (JValue.jobj
          [("suggested_priority", JValue.jstr "high"),
           ("reasoning", JValue.jstr "release day"),
           ("urgency_score", JValue.jint 42)])))
      "Ship release" "" none 0).urgency_score = 42 ∧
    ¬ ((analyze_task_priority true true
      (SendOutcome.ok
        "\x7b\"suggested_priority\": \"high\", \"reasoning\": \"release day\", \"urgency_score\": 42\x7d"
        (some (JValue.jobj
          [("suggested_priority", JValue.jstr "high"),
           ("reasoning", JValue.jstr "release day"),
           ("urgency_score", JValue.jint 42)])))
      "Ship release" "" none 0).urgency_score ≤ 10) := by
  constructor <;> decide

/-- C4 (amended): on the heuristic path and on every fallback path (the
transport-failure result and the whole-reply parse fallback), the
suggested priority equals the fixed map of the urgency score; on the AI
success-parse path the priority is copied from the reply and need not
match the score, see the counterexample. -/
theorem priority_label_mapping_amended (hasKey aiAvailable : Bool)
    (outcome : SendOutcome) (title description : String) (due : Option ℚ)
    (now : ℚ)
    (h : hasKey = false ∨ aiAvailable = false ∨ outcome = SendOutcome.err ∨
      ∀ raw parsed, outcome = SendOutcome.ok raw parsed →
        parsed.bind parsePriorityFields = none) :
    (analyze_task_priority hasKey aiAvailable outcome title description due
      now).suggested_priority
      = labelOfScore (analyze_task_priority hasKey aiAvailable outcome title
        description due now).urgency_score := by
  unfold analyze_task_priority
  by_cases hmode : (!hasKey || !aiAvailable) = true
  · rw [if_pos hmode]
    rfl
  · rw [if_neg hmode]
    cases outcome with
    | err => rfl
    | ok raw parsed =>
      rcases h with h | h | h | h
      · subst h; exact absurd rfl hmode
      · subst h; simp at hmode
      · exact nomatch h
      · have hb := h raw parsed rfl
        cases parsed with
        | none => rfl
        | some j =>
          have hbj : parsePriorityFields j = none := by simpa using hb
          show (parsePriority (some j)).suggested_priority
            = labelOfScore (parsePriority (some j)).urgency_score
          simp only [parsePriority, hbj]
          rfl

/-- Witness for C4 (amended) on the heuristic path. -/
theorem priority_label_mapping_amended_witness :
    (analyze_task_priority false true SendOutcome.err "Plan week" "" none
      0).suggested_priority
      = labelOfScore (analyze_task_priority false true SendOutcome.err
        "Plan week" "" none 0).urgency_score :=
  priority_label_mapping_amended false true SendOutcome.err "Plan week" ""
    none 0 (Or.inl rfl)

/-- Counterexample for C4 as stated: on the AI success path a reply
carrying suggested_priority low together with urgency_score 10 is passed
through unchanged, and low is not the label the fixed mapping assigns to
score 10. The listed JSON value is exactly what json.loads returns on
the listed raw reply text. -/
theorem priority_label_mapping_counterexample :
    analyze_task_priority true true
      (SendOutcome.ok
        "\x7b\"suggested_priority\": \"low\", \"reasoning\": \"minor\", \"urgency_score\": 10\x7d"
        (some (JValue.jobj
          [("suggested_priority", JValue.jstr "low"),
           ("reasoning", JValue.jstr "minor"),
           ("urgency_score", JValue.jint 10)])))
      "Quarterly filing" "" none 0
      = { suggested_priority := "low", reasoning := "minor"
          urgency_score := 10 } ∧
    ("low" : String) ≠ labelOfScore 10 := by
  constructor <;> decide

/-- C6 (amended): for a reply that parses as a JSON object in which each
of the three expected fields is either absent or well-typed (string
priority, string reasoning, integer score), each present field is used
and each missing field is replaced by its fixed default individually,
without discarding the other fields. When a present field is ill-typed
the whole reply is discarded instead, see the counterexample. -/
theorem parse_priority_welltyped_fields (sp rz : Option String)
    (us : Option Int) :
    parsePriority (some (mkPriorityReply sp rz us)) =
      { suggested_priority := sp.getD "medium"
        reasoning := rz.getD "Analysis completed"
        urgency_score := us.getD 5 } := by
  cases sp <;> cases rz <;> cases us <;> rfl

/-- Counterexample for C6 as stated: a reply whose suggested_priority is
the well-typed string high but whose urgency_score is a non-numeric
string makes the int conversion raise, so the whole reply is discarded:
the result is the fixed fallback, the parsed priority high is lost, and
even the reasoning default differs from the claimed per-field default. -/
theorem parse_priority_field_isolation_counterexample :
    parsePriority (some (JValue.jobj
      [("suggested_priority", JValue.jstr "high"),
       ("urgency_score", JValue.jstr "not a number")]))
      = priorityParseFallback ∧
    priorityParseFallback.suggested_priority ≠ "high" ∧
    priorityParseFallback.reasoning ≠ "Analysis completed" := by
  refine ⟨?_, ?_, ?_⟩ <;> decide

end Taskflow
